import Mathlib

/-!
Verification of the reconciliation, filtering and pagination engine of the
todo_list repository, as a shallow embedding in Lean 4.

Conventions used throughout the embedding:
  - Timestamps are modelled as integers.  For the creation-date simulation
    (TodoService getOrCreateTodoDate, dateUtils generateCreationDate) the unit
    is days: in the source, the arithmetic is performed with Date.setDate on a
    value whose time-of-day component is fixed, so it is exactly day
    arithmetic.  For the date-range filter the unit is milliseconds since the
    epoch, matching Date.getTime, with days entering as day * 86400000.
  - JavaScript objects read from localStorage are modelled as Lean values that
    are already parsed; the source returns an empty collection on read or
    parse failure, which the embedding represents by the caller passing an
    empty list.
  - A rejected promise from the transport layer (network error, timeout,
    aborted request, JSON parse failure) is modelled by the RemoteOutcome.err
    constructor; the embedded functions are total, mirroring the fact that the
    source absorbs those rejections in a catch block instead of rethrowing.
  - Text is modelled as List Char where the JavaScript trim / length
    semantics matter (all inputs considered are ASCII, where the two agree).
-/

/-! ## Data model: the task record (TodoService normalized shape) -/

/-- A task record, covering every field the source ever places on a stored or
returned todo object: the normalized API fields, the localStorage bookkeeping
fields savedAt / updatedAt, and the provenance flags isLocal / fromApi.
Absent object keys are modelled by Option none or a false flag. -/
structure Todo where
  id : Nat
  title : String
  completed : Bool
  userId : Nat
  createdAt : Option Int := none
  savedAt : Option Int := none
  updatedAt : Option Int := none
  isLocal : Bool := false
  fromApi : Bool := false
deriving Repr, DecidableEq

/-- A raw remote item before normalization: the text may arrive under the
field name todo (DummyJSON) or title (JSONPlaceholder), and completed may be
absent.  Mirrors the item shape consumed by transformTodoItem. -/
structure RawTodo where
  id : Nat
  todoField : Option String := none
  titleField : Option String := none
  completed : Option Bool := none
  userId : Nat
deriving Repr, DecidableEq

/-! ## CreationDateAssigner (TodoService.getOrCreateTodoDate and
dateUtils.generateCreationDate) -/

/-- The persisted id-to-timestamp map (localStorage key todo_app_creation_dates),
modelled as an association list; lookup ignores duplicate later entries just as
a JavaScript object has one value per key. -/
abbrev DateMap := List (Nat × Int)

/-- The fresh-date formula of TodoService.getOrCreateTodoDate: daysAgo is
todoId % 30 and the simulated date is now minus daysAgo days
(creationDate.setDate(now.getDate() - daysAgo)). -/
def todoServiceFreshDate (now : Int) (todoId : Nat) : Int :=
  now - (todoId % 30 : Nat)

/-- TodoService.getOrCreateTodoDate: return the cached date for todoId when the
map has one, otherwise compute the fresh date, store it under todoId and return
it.  Returns the date together with the updated map. -/
def getOrCreateTodoDate (dates : DateMap) (now : Int) (todoId : Nat) :
    Int × DateMap :=
  match dates.lookup todoId with
  | some d => (d, dates)
  | none =>
      let d := todoServiceFreshDate now todoId
      (d, (todoId, d) :: dates)

/-- dateUtils.generateCreationDate: base date is now minus 30 days, advanced by
todoId % 30 days.  (This helper and dateUtils.getCreationDate are exported by
the repository but have no importer; the live assigner is
getOrCreateTodoDate.) -/
def generateCreationDate (now : Int) (todoId : Nat) : Int :=
  (now - 30) + (todoId % 30 : Nat)

/-- Resolve a sequence of ids through the date assigner, each with its own
clock reading, keeping only the evolving map.  Used to express that resolving
other ids first does not influence the date later assigned to an id. -/
def resolveDates (dates : DateMap) : List (Nat × Int) → DateMap
  | [] => dates
  | (i, now) :: rest => resolveDates ((getOrCreateTodoDate dates now i).2) rest

/-! ## Paginator (Pagination component in SearchBar.js bundle) -/

/-- The mutable fields of the Pagination component that the page logic reads
and writes (the rendering fields are display-only). -/
structure PagState where
  itemsPerPage : Nat
  totalItems : Nat
  currentPage : Nat
  previousPage : Nat
deriving Repr, DecidableEq

/-- Pagination constructor: itemsPerPage defaults to 10 and totalItems to 0
when the options are absent or 0 (JavaScript || on a falsy value), and the
component starts on page 1. -/
def mkPagination (itemsPerPage totalItems : Nat) : PagState :=
  { itemsPerPage := if itemsPerPage = 0 then 10 else itemsPerPage
    totalItems := totalItems
    currentPage := 1
    previousPage := 1 }

/-- Pagination.totalPages: Math.max(1, Math.ceil(totalItems / itemsPerPage)).
For itemsPerPage > 0 the natural-number expression (t + p - 1) / p is exactly
Math.ceil(t / p). -/
def PagState.totalPages (s : PagState) : Nat :=
  max 1 ((s.totalItems + s.itemsPerPage - 1) / s.itemsPerPage)

/-- Pagination.goToPage: out-of-range or same-page requests return without any
effect; otherwise previousPage and currentPage are updated and the
onPageChange callback fires.  The Bool records whether the callback fired. -/
def goToPage (s : PagState) (pageNumber : Nat) : PagState × Bool :=
  if pageNumber < 1 ∨ s.totalPages < pageNumber ∨ pageNumber = s.currentPage then
    (s, false)
  else
    ({ s with previousPage := s.currentPage, currentPage := pageNumber }, true)

/-- Pagination.updateTotalItems: store the new total, clamp currentPage when
it now exceeds totalPages, optionally reset to page 1, and fire onPageChange
when resetPage was requested, the page changed, or totalPages changed. -/
def updateTotalItems (s : PagState) (totalItems : Nat) (resetPage : Bool) :
    PagState × Bool :=
  let previousTotalPages := s.totalPages
  let s1 := { s with totalItems := totalItems }
  let wasOnPage := s1.currentPage
  let s2 :=
    if s1.totalPages < s1.currentPage then
      { s1 with currentPage := max 1 s1.totalPages }
    else s1
  let s3 :=
    if resetPage then
      { s2 with previousPage := s2.currentPage, currentPage := 1 }
    else s2
  let pageChanged := resetPage ∨ s3.currentPage ≠ wasOnPage
  let totalPagesChanged := previousTotalPages ≠ s3.totalPages
  (s3, decide pageChanged || decide totalPagesChanged)

/-- Pagination.reset: back to page 1, no callback. -/
def resetPagination (s : PagState) : PagState :=
  { s with currentPage := 1 }

/-- The operations a caller can perform on a Pagination component after
construction. -/
inductive PagOp where
  | goTo (pageNumber : Nat)
  | updateTotal (totalItems : Nat) (resetPage : Bool)
  | reset
deriving Repr, DecidableEq

/-- Apply one paginator operation, discarding the callback flag. -/
def applyPagOp (s : PagState) : PagOp → PagState
  | .goTo n => (goToPage s n).1
  | .updateTotal t r => (updateTotalItems s t r).1
  | .reset => resetPagination s

/-- The paginator invariant: a positive page size and a current page within
[1, totalPages]. -/
def PagInv (s : PagState) : Prop :=
  1 ≤ s.itemsPerPage ∧ 1 ≤ s.currentPage ∧ s.currentPage ≤ s.totalPages

instance (s : PagState) : Decidable (PagInv s) := by
  unfold PagInv; infer_instance

/-! ## PersistentRecordStore (TodoService localStorage helpers) -/

/-- The sort key of the default ordering in TodoService.getLocalTodos:
new Date(a.createdAt || a.savedAt || 0). -/
def localSortKey (t : Todo) : Int :=
  t.createdAt.getD (t.savedAt.getD 0)

/-- Stable insertion used to model the default descending sort of
TodoService.getLocalTodos (comparator bDate - aDate, Array.prototype.sort
being stable): an element is placed before the first element with a key less
than or equal to its own, so later list elements never overtake earlier ones
with an equal key. -/
def insertByKeyDesc (t : Todo) : List Todo → List Todo
  | [] => [t]
  | x :: xs =>
      if localSortKey x ≤ localSortKey t then t :: x :: xs
      else x :: insertByKeyDesc t xs

/-- TodoService.getLocalTodos with default options: parse the stored list and
sort it newest-createdAt-first (ties keep stored order).  Parse failure in the
source yields an empty list, modelled by the caller passing []. -/
def getLocalTodos (store : List Todo) : List Todo :=
  store.foldr insertByKeyDesc []

/-- TodoService.saveLocalTodo: ignore records with a falsy id, update in place
when a record with the same id exists (spread keeps the fields the update
object lacks, here savedAt, and stamps updatedAt), otherwise append the record
with a savedAt stamp. -/
def saveLocalTodo (store : List Todo) (t : Todo) (nowMs : Int) : List Todo :=
  if t.id = 0 then store
  else
    match store.findIdx? (fun x => x.id = t.id) with
    | some i =>
        store.set i
          (match store.get? i with
           | some old => { t with savedAt := old.savedAt, updatedAt := some nowMs }
           | none => t)
    | none => store ++ [{ t with savedAt := some nowMs }]

/-! ## RemoteLocalMerger (TodoService.fetchTodos and its transforms) -/

/-- The two remote response shapes fetchTodos can receive: a bare array
(JSONPlaceholder) or an object carrying a todos array with total / limit /
skip counters (DummyJSON), any of which may be absent. -/
inductive ApiResponse where
  | arr (items : List RawTodo)
  | obj (todos : Option (List RawTodo)) (total : Option Nat)
      (limit : Option Nat) (skip : Option Nat)
deriving Repr, DecidableEq

/-- Outcome of the transport call inside fetchTodos: a parsed response, or a
rejected promise of any kind (network error, timeout, malformed body). -/
inductive RemoteOutcome where
  | ok (resp : ApiResponse)
  | err
deriving Repr, DecidableEq

/-- Pagination metadata attached to a fetch result. -/
structure PaginationInfo where
  total : Nat
  limit : Nat
  skip : Nat
deriving Repr, DecidableEq

/-- The value fetchTodos resolves with. -/
structure FetchResult where
  todos : List Todo
  pagination : PaginationInfo
deriving Repr, DecidableEq

/-- The field part of TodoService.transformTodoItem: title is
todo.todo || todo.title (an empty string is falsy), completed defaults to
false, and createdAt is filled in by the date assigner. -/
def transformTodoItemCore (r : RawTodo) (createdAt : Int) : Todo :=
  { id := r.id
    title :=
      match r.todoField with
      | some s => if s = "" then (r.titleField.getD "") else s
      | none => r.titleField.getD ""
    completed := r.completed.getD false
    userId := r.userId
    createdAt := some createdAt }

/-- Normalize a list of raw items, threading the creation-date map through
TodoService.getOrCreateTodoDate exactly as the source maps
transformTodoItem over the array. -/
def transformItems (dates : DateMap) (now : Int) :
    List RawTodo → List Todo × DateMap
  | [] => ([], dates)
  | r :: rs =>
      let step := getOrCreateTodoDate dates now r.id
      let rest := transformItems step.2 now rs
      (transformTodoItemCore r step.1 :: rest.1, rest.2)

/-- TodoService.transformTodosResponse: an array response reports its own
length as total and limit; an object response falls back with || on each
counter (so a 0 or missing total becomes the array length).  itemsPerPage is
the configured 10. -/
def transformTodosResponse (dates : DateMap) (now : Int) (resp : ApiResponse) :
    FetchResult × DateMap :=
  match resp with
  | .arr items =>
      let tr := transformItems dates now items
      ({ todos := tr.1
         pagination := { total := items.length, limit := items.length, skip := 0 } },
       tr.2)
  | .obj todos? total? limit? skip? =>
      let items := todos?.getD []
      let tr := transformItems dates now items
      ({ todos := tr.1
         pagination :=
           { total :=
               match total? with
               | some t => if t = 0 then items.length else t
               | none => items.length
             limit :=
               match limit? with
               | some l => if l = 0 then 10 else l
               | none => 10
             skip := skip?.getD 0 } },
       tr.2)

/-- The uniqueLocalTodos filter of fetchTodos: keep exactly the local records
whose id does not appear among the normalized remote records. -/
def survivingLocals (localTodos remoteTodos : List Todo) : List Todo :=
  localTodos.filter
    (fun localTodo => ! remoteTodos.any (fun apiTodo => apiTodo.id = localTodo.id))

/-- The successful branch of TodoService.fetchTodos, given the todos already
read from the store: normalize the response, drop local records whose id
collides with a remote record, prepend the survivors and add their count to
the reported total.  (The source also persists the new remote records before
merging; that write does not feed back into the returned value, whose merge
uses the localTodos read at entry.) -/
def mergeRemote (localTodos : List Todo) (transformed : FetchResult) :
    FetchResult :=
  let uniqueLocalTodos := survivingLocals localTodos transformed.todos
  if uniqueLocalTodos.length > 0 then
    { todos := uniqueLocalTodos ++ transformed.todos
      pagination :=
        { transformed.pagination with
            total := transformed.pagination.total + uniqueLocalTodos.length } }
  else transformed

/-- TodoService.fetchTodos as a function of the stored local records, the
creation-date map, the clock, the requested limit and the transport outcome.
On a transport rejection the catch branch resolves with the full local list
and its length as total; nothing is rethrown. -/
def fetchTodos (store : List Todo) (dates : DateMap) (now : Int) (limit : Nat)
    (outcome : RemoteOutcome) : FetchResult :=
  let localTodos := getLocalTodos store
  match outcome with
  | .ok resp =>
      let tr := transformTodosResponse dates now resp
      mergeRemote localTodos tr.1
  | .err =>
      { todos := localTodos
        pagination := { total := localTodos.length, limit := limit, skip := 0 } }

/-! ## addTodo (TodoService.addTodo) -/

/-- The input object addTodo receives from the form; the source accepts the
text under title or todo and treats missing or empty values as falsy. -/
structure TodoInput where
  title : Option String := none
  todoField : Option String := none
  completed : Option Bool := none
  userId : Option Nat := none
deriving Repr, DecidableEq

/-- JavaScript || over optional strings: an absent or empty first operand
yields the second. -/
def jsOrString (a b : Option String) : Option String :=
  match a with
  | some s => if s = "" then b else some s
  | none => b

/-- The apiData normalization at the top of addTodo: todo is
todoData.title || todoData.todo, completed defaults to false, and userId is
todoData.userId || config.defaultUserId where the configured default is 1. -/
def normalizeAddData (d : TodoInput) : Option String × Bool × Nat :=
  (jsOrString d.title d.todoField,
   d.completed.getD false,
   match d.userId with
   | some u => if u = 0 then 1 else u
   | none => 1)

/-- The catch branch of addTodo: build a fallback record with Date.now() as
id, the normalized input fields, the current instant as createdAt and
isLocal true, save it to the local store, and resolve with it. -/
def addTodoFallback (store : List Todo) (nowMs : Nat) (d : TodoInput) :
    Todo × List Todo :=
  let n := normalizeAddData d
  let fallbackTodo : Todo :=
    { id := nowMs
      title := n.1.getD ""
      completed := n.2.1
      userId := n.2.2
      createdAt := some (nowMs : Int)
      isLocal := true }
  (fallbackTodo, saveLocalTodo store fallbackTodo (nowMs : Int))

/-! ## Validators (utils/validators.js) and the TodoForm creation path -/

/-- The whitespace class stripped by the JavaScript trim used here; the
inputs in scope are ASCII. -/
def isJsSpace (c : Char) : Bool :=
  c = ' ' ∨ c = '\t' ∨ c = '\n' ∨ c = '\r' ∨ c = '\x0b' ∨ c = '\x0c'

/-- String.prototype.trim over a character list: strip leading and trailing
whitespace. -/
def jsTrim (s : List Char) : List Char :=
  ((s.dropWhile isJsSpace).reverse.dropWhile isJsSpace).reverse

/-- The result object every validator in validators.js returns. -/
structure ValidationResult where
  isValid : Bool
  message : String
deriving Repr, DecidableEq

/-- validators.validateRequired: the trimmed value must be non-empty. -/
def validateRequired (value : List Char) : ValidationResult :=
  if jsTrim value ≠ [] then { isValid := true, message := "" }
  else { isValid := false, message := "This field is required" }

/-- validators.validateMinLength (default 3): required, then trimmed length at
least minLength. -/
def validateMinLength (value : List Char) (minLength : Nat := 3) :
    ValidationResult :=
  let required := validateRequired value
  if ¬ required.isValid then required
  else if minLength ≤ (jsTrim value).length then { isValid := true, message := "" }
  else { isValid := false
         message := "Must be at least " ++ toString minLength ++ " characters" }

/-- validators.validateMaxLength (default 100): required, then trimmed length
at most maxLength. -/
def validateMaxLength (value : List Char) (maxLength : Nat := 100) :
    ValidationResult :=
  let required := validateRequired value
  if ¬ required.isValid then required
  else if (jsTrim value).length ≤ maxLength then { isValid := true, message := "" }
  else { isValid := false
         message := "Must be no more than " ++ toString maxLength ++ " characters" }

/-- validators.validateTodoText: required, then min length 3, then max length
100.  (Exported by the repository; no module imports it.) -/
def validateTodoText (value : List Char) : ValidationResult :=
  let required := validateRequired value
  if ¬ required.isValid then required
  else
    let minL := validateMinLength value 3
    if ¬ minL.isValid then minL
    else
      let maxL := validateMaxLength value 100
      if ¬ maxL.isValid then maxL
      else { isValid := true, message := "" }

/-- TodoForm.validateInput, the only validation on the record-creation path:
the trimmed input value must merely be non-empty
(isValid = value.length > 0 after trimming). -/
def todoFormValidateInput (value : List Char) : Bool :=
  (jsTrim value).length > 0

/-! ## Date-range validation (validators.validateDateRange and
DateFilter.validateAndFilter) -/

/-- Calendar days are numbered by an integer; a date input holding day d
parses to the instant startOfDayMs d, and the end-of-day adjustment
setHours(23,59,59,999) lands on endOfDayMs d. -/
def startOfDayMs (day : Int) : Int := day * 86400000

/-- Milliseconds of the last instant of a day. -/
def endOfDayMs (day : Int) : Int := day * 86400000 + 86399999

/-- validators.validateDateRange over optional (already well-formed) day
numbers: empty inputs are valid, a single input is valid, and two inputs are
invalid exactly when the start parses after the end. -/
def validateDateRange (startDay endDay : Option Int) : ValidationResult :=
  match startDay, endDay with
  | none, none => { isValid := true, message := "" }
  | none, some _ => { isValid := true, message := "" }
  | some _, none => { isValid := true, message := "" }
  | some s, some e =>
      if startOfDayMs s > startOfDayMs e then
        { isValid := false, message := "Start date must be before end date" }
      else { isValid := true, message := "" }

/-- What DateFilter.validateAndFilter does with a change: either the onFilter
callback is invoked with the stored millisecond bounds, or the change is
rejected with an inline validation error and the callback is never invoked. -/
inductive FilterAction where
  | applied (fromMs toMs : Option Int)
  | rejected
deriving Repr, DecidableEq

/-- DateFilter.validateAndFilter over already well-formed date-input values
(a date input yields a valid date or the empty string, modelled as Option of
a day number); today is the current day.  Two empty inputs clear the filter;
a from-day after the to-day is rejected before the callback; a future
from-day is rejected; a future to-day is capped at the end of today; any
surviving range is handed to the callback. -/
def validateAndFilter (today : Int) (fromInput toInput : Option Int) :
    FilterAction :=
  match fromInput, toInput with
  | none, none => .applied none none
  | fromIn, toIn =>
      let fromDate := fromIn.map startOfDayMs
      let toDate := toIn.map endOfDayMs
      if fromDate.isSome ∧ toDate.isSome ∧
          fromDate.getD 0 > toDate.getD 0 then .rejected
      else if fromDate.isSome ∧ fromDate.getD 0 > endOfDayMs today then .rejected
      else
        let toDate2 :=
          match toDate with
          | some t => some (if t > endOfDayMs today then endOfDayMs today else t)
          | none => none
        .applied fromDate toDate2

/-! ## Helper lemmas -/

/-- Stable insertion produces a permutation of consing. -/
theorem insertByKeyDesc_perm (t : Todo) (l : List Todo) :
    List.Perm (insertByKeyDesc t l) (t :: l) := by
  induction l with
  | nil => simp [insertByKeyDesc]
  | cons x xs ih =>
      simp only [insertByKeyDesc]
      split
      · exact List.Perm.refl _
      · exact (ih.cons x).trans (List.Perm.swap t x xs)

/-- The default read of the local store returns exactly the stored records,
reordered. -/
theorem getLocalTodos_perm (store : List Todo) :
    List.Perm (getLocalTodos store) store := by
  induction store with
  | nil => simp [getLocalTodos]
  | cons x xs ih =>
      exact (insertByKeyDesc_perm x (getLocalTodos xs)).trans (ih.cons x)

/-- The descending-key order on records used by the default store sort. -/
def keyGE (a b : Todo) : Prop := localSortKey b ≤ localSortKey a

/-- Inserting into a descending-sorted list keeps it descending-sorted. -/
theorem insertByKeyDesc_sorted {t : Todo} {l : List Todo}
    (h : l.Pairwise keyGE) : (insertByKeyDesc t l).Pairwise keyGE := by
  induction l with
  | nil => simp [insertByKeyDesc, List.Pairwise.nil]
  | cons x xs ih =>
      rw [List.pairwise_cons] at h
      simp only [insertByKeyDesc]
      split
      · rename_i hx
        refine List.Pairwise.cons ?_ (List.Pairwise.cons h.1 h.2)
        intro y hy
        rcases List.mem_cons.mp hy with rfl | hy
        · exact hx
        · exact le_trans (h.1 y hy) hx
      · rename_i hx
        push_neg at hx
        refine List.Pairwise.cons ?_ (ih h.2)
        intro y hy
        have hy2 := List.mem_cons.mp ((insertByKeyDesc_perm t xs).mem_iff.mp hy)
        rcases hy2 with rfl | hy2
        · exact le_of_lt hx
        · exact h.1 y hy2

/-- The default read of the local store is sorted newest-key-first. -/
theorem getLocalTodos_sorted (store : List Todo) :
    (getLocalTodos store).Pairwise keyGE := by
  induction store with
  | nil => simp [getLocalTodos]
  | cons x xs ih => exact insertByKeyDesc_sorted ih

/-- Normalization preserves the ids of the raw items, in order. -/
theorem transformItems_map_id (dates : DateMap) (now : Int)
    (rs : List RawTodo) :
    ((transformItems dates now rs).1.map Todo.id) = rs.map RawTodo.id := by
  induction rs generalizing dates with
  | nil => rfl
  | cons r rest ih => simp [transformItems, transformTodoItemCore, ih]

/-- Resolving one id never touches the cache entry of another id. -/
theorem getOrCreateTodoDate_lookup_other {i id : Nat} (dates : DateMap)
    (now : Int) (h : i ≠ id) :
    ((getOrCreateTodoDate dates now i).2).lookup id = dates.lookup id := by
  unfold getOrCreateTodoDate
  cases hl : dates.lookup i with
  | some d => rfl
  | none =>
      simp only [List.lookup]
      rw [show (id == i) = false from beq_eq_false_iff_ne.mpr (Ne.symm h)]

/-- Resolving a sequence of other ids leaves the cache entry of an untouched
id unchanged. -/
theorem resolveDates_lookup {id : Nat} (dates : DateMap)
    (others : List (Nat × Int)) (h : id ∉ others.map Prod.fst) :
    (resolveDates dates others).lookup id = dates.lookup id := by
  induction others generalizing dates with
  | nil => rfl
  | cons p rest ih =>
      simp only [List.map, List.mem_cons] at h
      push_neg at h
      simp only [resolveDates]
      rw [ih _ h.2, getOrCreateTodoDate_lookup_other _ _ (Ne.symm h.1)]

/-! ## Claim theorems -/

/-- C2: for every stored local record set, when the remote request inside
fetchTodos fails (any rejection: network error, timeout, malformed body), the
call resolves, without throwing, with exactly the full local record set (the
store contents in their default order), total equal to the count of local
records, and only store-resident (hence no remote-origin) records.  Totality
of the embedded fetchTodos reflects that the catch branch returns instead of
rethrowing. -/
theorem C2_fallback_totality (store : List Todo) (dates : DateMap) (now : Int)
    (limit : Nat) :
    fetchTodos store dates now limit .err =
      { todos := getLocalTodos store
        pagination := { total := (getLocalTodos store).length
                        limit := limit
                        skip := 0 } }
    ∧ List.Perm (fetchTodos store dates now limit .err).todos store
    ∧ (fetchTodos store dates now limit .err).pagination.total = store.length
    ∧ ∀ t ∈ (fetchTodos store dates now limit .err).todos, t ∈ store := by
  refine ⟨rfl, getLocalTodos_perm store, ?_, ?_⟩
  · simpa [fetchTodos] using (getLocalTodos_perm store).length_eq
  · intro t ht
    exact (getLocalTodos_perm store).mem_iff.mp (by simpa [fetchTodos] using ht)

/-- C4 counterexample: the live date assigner (TodoService
getOrCreateTodoDate) gives id 0 the date now itself and id 1 the date one day
earlier, so at now = 0 the fresh date of id 0 is 0, not now - 30 + (0 % 30) =
-30 as the claim states, and the lower id 0 receives a strictly newer date
than id 1 from the same 30-value band, refuting lower-ids-trend-older. -/
theorem C4_counterexample :
    (getOrCreateTodoDate [] 0 0).1 = 0 ∧
    (getOrCreateTodoDate [] 0 1).1 = -1 ∧
    generateCreationDate 0 0 = -30 ∧
    (getOrCreateTodoDate [] 0 0).1 ≠ generateCreationDate 0 0 ∧
    ¬ (getOrCreateTodoDate [] 0 0).1 ≤ (getOrCreateTodoDate [] 0 1).1 :=
  ⟨rfl, rfl, rfl, by decide, by decide⟩

/-- C4 amended: for an id with no cached timestamp the live date assigner
computes now minus (id mod 30) days, so within a 30-value band lower ids
receive strictly newer or equal dates (higher ids trend older); the formula
of the claim, now minus 30 days plus (id mod 30) days with lower ids older,
is computed only by the dateUtils helper generateCreationDate, which no
module imports. -/
theorem C4_fresh_date_formula :
    (∀ (dates : DateMap) (now : Int) (i : Nat), dates.lookup i = none →
        (getOrCreateTodoDate dates now i).1 = now - (i % 30 : Nat)) ∧
    (∀ (now : Int) (a b : Nat), a / 30 = b / 30 → a ≤ b →
        (getOrCreateTodoDate [] now b).1 ≤ (getOrCreateTodoDate [] now a).1) ∧
    (∀ (now : Int) (i : Nat),
        generateCreationDate now i = now - 30 + (i % 30 : Nat)) ∧
    (∀ (now : Int) (a b : Nat), a / 30 = b / 30 → a ≤ b →
        generateCreationDate now a ≤ generateCreationDate now b) := by
  refine ⟨?_, ?_, fun _ _ => rfl, ?_⟩
  · intro dates now i h
    simp [getOrCreateTodoDate, h, todoServiceFreshDate]
  · intro now a b hq hle
    simp only [getOrCreateTodoDate, List.lookup, todoServiceFreshDate]
    omega
  · intro now a b hq hle
    simp only [generateCreationDate]
    omega

/-- C4 witness: concrete instances of every hypothesis-bearing part of the
amended theorem. -/
theorem C4_fresh_date_formula_witness :
    ([] : DateMap).lookup 5 = none ∧
    (getOrCreateTodoDate [] 100 5).1 = 100 - ((5 : Nat) % 30 : Nat) ∧
    (31 : Nat) / 30 = (32 : Nat) / 30 ∧ (31 : Nat) ≤ 32 ∧
    (getOrCreateTodoDate [] 100 32).1 ≤ (getOrCreateTodoDate [] 100 31).1 ∧
    generateCreationDate 100 31 ≤ generateCreationDate 100 32 :=
  ⟨rfl, C4_fresh_date_formula.1 [] 100 5 rfl, by decide, by decide,
   C4_fresh_date_formula.2.1 100 31 32 (by decide) (by decide),
   C4_fresh_date_formula.2.2.2 100 31 32 (by decide) (by decide)⟩

/-- C5: date assignment is idempotent (a second call for the same id returns
the cached value and leaves the map unchanged, whatever the clock then reads)
and the value assigned to an id does not depend on which other ids were
resolved before it. -/
theorem C5_idempotent_dates :
    (∀ (dates : DateMap) (now now2 : Int) (i : Nat),
        getOrCreateTodoDate (getOrCreateTodoDate dates now i).2 now2 i =
          ((getOrCreateTodoDate dates now i).1,
           (getOrCreateTodoDate dates now i).2)) ∧
    (∀ (dates : DateMap) (now : Int) (i : Nat) (others : List (Nat × Int)),
        i ∉ others.map Prod.fst →
        (getOrCreateTodoDate (resolveDates dates others) now i).1 =
          (getOrCreateTodoDate dates now i).1) := by
  constructor
  · intro dates now now2 i
    cases hl : dates.lookup i with
    | some d => simp [getOrCreateTodoDate, hl]
    | none => simp [getOrCreateTodoDate, hl, List.lookup]
  · intro dates now i others h
    unfold getOrCreateTodoDate
    rw [resolveDates_lookup dates others h]
    cases dates.lookup i with
    | some d => rfl
    | none => rfl

/-- C5 witness: resolving ids 1 and 2 first (under different clock readings)
does not change the date later assigned to id 3. -/
theorem C5_idempotent_dates_witness :
    (3 : Nat) ∉ ([((1 : Nat), (50 : Int)), (2, 60)].map Prod.fst) ∧
    (getOrCreateTodoDate (resolveDates [] [(1, 50), (2, 60)]) 70 3).1 =
      (getOrCreateTodoDate [] 70 3).1 :=
  ⟨by decide, C5_idempotent_dates.2 [] 70 3 [(1, 50), (2, 60)] (by decide)⟩

/-- C8: a query with both dates set and the from-day after the to-day is
rejected before any filtering runs: DateFilter.validateAndFilter returns
without invoking the onFilter callback, and validators.validateDateRange
flags the range as invalid. -/
theorem C8_date_range_rejected (today f t : Int) (h : f > t) :
    validateAndFilter today (some f) (some t) = .rejected ∧
    (validateDateRange (some f) (some t)).isValid = false := by
  have hms : startOfDayMs f > endOfDayMs t := by
    simp only [startOfDayMs, endOfDayMs]
    omega
  have hss : startOfDayMs f > startOfDayMs t := by
    simp only [startOfDayMs]
    omega
  constructor
  · simp [validateAndFilter, hms]
  · simp [validateDateRange, hss]

/-- C8 witness: the concrete out-of-order range of Scenario D, with the
from-day five days after the to-day. -/
theorem C8_date_range_rejected_witness :
    (10 : Int) > 5 ∧
    validateAndFilter 100 (some 10) (some 5) = .rejected ∧
    (validateDateRange (some 10) (some 5)).isValid = false :=
  ⟨by decide, (C8_date_range_rejected 100 10 5 (by decide)).1,
   (C8_date_range_rejected 100 10 5 (by decide)).2⟩

/-- C9 counterexample: the two-character input ab has trimmed length 2, below
the claimed minimum of 3, yet the creation-path validation
(TodoForm.validateInput, the only validation run before a record is created)
accepts it; the 3-to-100 rule exists only in validateTodoText, which the
creation path never calls. -/
theorem C9_counterexample :
    (jsTrim ['a', 'b']).length = 2 ∧
    todoFormValidateInput ['a', 'b'] = true ∧
    (validateTodoText ['a', 'b']).isValid = false :=
  ⟨rfl, rfl, rfl⟩

/-- C9 amended: the creation-path validation accepts exactly the inputs whose
trimmed text is non-empty (length at least 1, with no upper bound), while the
3-to-100-character rule is implemented only by validateTodoText, which
accepts exactly trimmed lengths between 3 and 100 but is invoked nowhere. -/
theorem C9_creation_validation :
    (∀ v : List Char, todoFormValidateInput v = true ↔ 1 ≤ (jsTrim v).length) ∧
    (∀ v : List Char, (validateTodoText v).isValid = true ↔
        3 ≤ (jsTrim v).length ∧ (jsTrim v).length ≤ 100) := by
  constructor
  · intro v
    simp only [todoFormValidateInput, decide_eq_true_eq]
    omega
  · intro v
    have h0 : (jsTrim v ≠ []) ↔ 1 ≤ (jsTrim v).length := by
      cases jsTrim v <;> simp
    by_cases he : jsTrim v = []
    · simp [validateTodoText, validateRequired, validateMinLength,
            validateMaxLength, he]
    · by_cases h3 : 3 ≤ (jsTrim v).length
      · by_cases h100 : (jsTrim v).length ≤ 100
        · simp [validateTodoText, validateRequired, validateMinLength,
                validateMaxLength, he, h3, h100]
        · simp [validateTodoText, validateRequired, validateMinLength,
                validateMaxLength, he, h3, h100]
      · simp [validateTodoText, validateRequired, validateMinLength,
              validateMaxLength, he, h3]

/-- totalPages never drops below 1. -/
theorem pag_totalPages_pos (s : PagState) : 1 ≤ s.totalPages :=
  Nat.le_max_left 1 _

/-- The totalPages value after updateTotalItems stores a new total. -/
def tpAfter (s : PagState) (t : Nat) : Nat :=
  ({ s with totalItems := t } : PagState).totalPages

/-- Closed form of the state updateTotalItems leaves behind. -/
theorem updateTotalItems_fst (s : PagState) (t : Nat) (r : Bool) :
    (updateTotalItems s t r).1 =
      { itemsPerPage := s.itemsPerPage
        totalItems := t
        currentPage :=
          if r then 1
          else if tpAfter s t < s.currentPage then tpAfter s t
          else s.currentPage
        previousPage :=
          if r then
            (if tpAfter s t < s.currentPage then tpAfter s t else s.currentPage)
          else s.previousPage } := by
  unfold updateTotalItems tpAfter
  by_cases hc : ({ s with totalItems := t } : PagState).totalPages < s.currentPage <;>
    by_cases hr : r = true <;>
      simp [hc, hr, Nat.max_eq_right (pag_totalPages_pos _)]

/-- updateTotalItems keeps totalPages in step with the stored total. -/
theorem updateTotalItems_totalPages (s : PagState) (t : Nat) (r : Bool) :
    (updateTotalItems s t r).1.totalPages = tpAfter s t := by
  rw [updateTotalItems_fst]
  rfl

/-- Closed form of the callback flag updateTotalItems returns. -/
theorem updateTotalItems_snd (s : PagState) (t : Nat) (r : Bool) :
    (updateTotalItems s t r).2 =
      ((r || decide ((updateTotalItems s t r).1.currentPage ≠ s.currentPage)) ||
        decide (s.totalPages ≠ tpAfter s t)) := by
  unfold updateTotalItems tpAfter
  have key : ∀ c p : Nat,
      ({ itemsPerPage := s.itemsPerPage, totalItems := t, currentPage := c,
         previousPage := p } : PagState).totalPages =
        ({ s with totalItems := t } : PagState).totalPages := fun c p => rfl
  by_cases hc : ({ s with totalItems := t } : PagState).totalPages < s.currentPage <;>
    by_cases hr : r = true <;>
      simp [hc, hr, Nat.max_eq_right (pag_totalPages_pos _), key]

/-- C6: totalPages is always at least 1; goToPage is a no-op exactly on
out-of-range or same-page requests and otherwise moves to the requested page
and fires the page-changed callback; the constructor establishes and every
operation (goToPage, updateTotalItems with any flag, reset) preserves
currentPage within [1, totalPages], so any operation sequence from a freshly
constructed paginator keeps the page in bounds. -/
theorem C6_pagination_bounds :
    (∀ s : PagState, 1 ≤ s.totalPages) ∧
    (∀ (s : PagState) (n : Nat),
        (n < 1 ∨ s.totalPages < n ∨ n = s.currentPage) →
        goToPage s n = (s, false)) ∧
    (∀ (s : PagState) (n : Nat),
        ¬ (n < 1 ∨ s.totalPages < n ∨ n = s.currentPage) →
        goToPage s n =
          ({ s with previousPage := s.currentPage, currentPage := n }, true)) ∧
    (∀ per tot : Nat, PagInv (mkPagination per tot)) ∧
    (∀ (s : PagState) (op : PagOp), PagInv s → PagInv (applyPagOp s op)) ∧
    (∀ (per tot : Nat) (ops : List PagOp),
        PagInv (ops.foldl applyPagOp (mkPagination per tot))) := by
  have h2 : ∀ (s : PagState) (n : Nat),
      (n < 1 ∨ s.totalPages < n ∨ n = s.currentPage) →
      goToPage s n = (s, false) := by
    intro s n h
    unfold goToPage
    rw [if_pos h]
  have h3 : ∀ (s : PagState) (n : Nat),
      ¬ (n < 1 ∨ s.totalPages < n ∨ n = s.currentPage) →
      goToPage s n =
        ({ s with previousPage := s.currentPage, currentPage := n }, true) := by
    intro s n h
    unfold goToPage
    rw [if_neg h]
  have h4 : ∀ per tot : Nat, PagInv (mkPagination per tot) := by
    intro per tot
    refine ⟨?_, Nat.le_refl 1, pag_totalPages_pos _⟩
    show 1 ≤ (if per = 0 then 10 else per)
    split <;> omega
  have h5 : ∀ (s : PagState) (op : PagOp), PagInv s → PagInv (applyPagOp s op) := by
    intro s op h
    cases op with
    | goTo n =>
        show PagInv (goToPage s n).1
        unfold goToPage
        split
        · exact h
        · rename_i hcond
          push_neg at hcond
          exact ⟨h.1, hcond.1, hcond.2.1⟩
    | updateTotal t r =>
        show PagInv (updateTotalItems s t r).1
        rw [updateTotalItems_fst]
        refine ⟨h.1, ?_, ?_⟩
        · show 1 ≤ (if r = true then 1
              else if tpAfter s t < s.currentPage then tpAfter s t
              else s.currentPage)
          split
          · exact Nat.le_refl 1
          · split
            · exact pag_totalPages_pos _
            · exact h.2.1
        · show (if r = true then 1
              else if tpAfter s t < s.currentPage then tpAfter s t
              else s.currentPage) ≤ tpAfter s t
          split
          · exact pag_totalPages_pos _
          · split
            · exact Nat.le_refl _
            · rename_i hclamp
              exact Nat.le_of_not_lt hclamp
    | reset =>
        exact ⟨h.1, Nat.le_refl 1, pag_totalPages_pos _⟩
  have h6 : ∀ (per tot : Nat) (ops : List PagOp),
      PagInv (ops.foldl applyPagOp (mkPagination per tot)) := by
    intro per tot ops
    have run : ∀ (s : PagState), PagInv s → PagInv (ops.foldl applyPagOp s) := by
      induction ops with
      | nil => intro s hs; exact hs
      | cons op rest ih => intro s hs; exact ih _ (h5 s op hs)
    exact run _ (h4 per tot)
  exact ⟨pag_totalPages_pos, h2, h3, h4, h5, h6⟩

/-- C6 witness: the hypothesis-bearing parts applied to concrete states: an
out-of-range request, a valid move, and invariant preservation across an
updateTotalItems call that shrinks the total below the current page. -/
theorem C6_pagination_bounds_witness :
    goToPage (mkPagination 10 35) 0 = (mkPagination 10 35, false) ∧
    goToPage (mkPagination 10 35) 3 =
      ({ mkPagination 10 35 with previousPage := 1, currentPage := 3 }, true) ∧
    PagInv (applyPagOp
      { itemsPerPage := 10, totalItems := 35, currentPage := 4, previousPage := 1 }
      (.updateTotal 25 false)) :=
  ⟨C6_pagination_bounds.2.1 _ 0 (by decide),
   C6_pagination_bounds.2.2.1 _ 3 (by decide),
   C6_pagination_bounds.2.2.2.2.1 _ _ (by decide)⟩

/-- C7 counterexample: updateTotalItems(5, resetToFirst = true) on a fresh
10-per-page paginator holding 5 items fires the page-changed callback even
though the effective page (1) and totalPages (1) are both unchanged, so the
claimed signal-iff-page-or-totalPages-changed equivalence fails. -/
theorem C7_counterexample :
    (updateTotalItems (mkPagination 10 5) 5 true).2 = true ∧
    (updateTotalItems (mkPagination 10 5) 5 true).1.currentPage =
      (mkPagination 10 5).currentPage ∧
    (updateTotalItems (mkPagination 10 5) 5 true).1.totalPages =
      (mkPagination 10 5).totalPages := by
  decide

/-- C7 amended: updateTotalItems fires the page-changed callback if and only
if resetToFirst was requested, the effective page after the call differs from
the page before, or totalPages changed; and Scenario C holds: with page size
10 and currentPage 4, updateTotalItems(25, resetToFirst = false) yields
totalPages 3, clamps currentPage to 3 and fires the callback. -/
theorem C7_update_signal :
    (∀ (s : PagState) (t : Nat) (r : Bool),
        (updateTotalItems s t r).2 = true ↔
          (r = true ∨
           (updateTotalItems s t r).1.currentPage ≠ s.currentPage ∨
           (updateTotalItems s t r).1.totalPages ≠ s.totalPages)) ∧
    (∀ s : PagState, s.itemsPerPage = 10 → s.currentPage = 4 →
        (updateTotalItems s 25 false).1.totalPages = 3 ∧
        (updateTotalItems s 25 false).1.currentPage = 3 ∧
        (updateTotalItems s 25 false).2 = true) := by
  constructor
  · intro s t r
    rw [updateTotalItems_snd, updateTotalItems_totalPages]
    simp only [Bool.or_eq_true, decide_eq_true_eq]
    constructor
    · rintro ((hr | hcp) | htp)
      · exact Or.inl hr
      · exact Or.inr (Or.inl hcp)
      · exact Or.inr (Or.inr (Ne.symm htp))
    · rintro (hr | hcp | htp)
      · exact Or.inl (Or.inl hr)
      · exact Or.inl (Or.inr hcp)
      · exact Or.inr (Ne.symm htp)
  · intro s hip hcp
    have htp : tpAfter s 25 = 3 := by
      simp [tpAfter, PagState.totalPages, hip]
    refine ⟨?_, ?_, ?_⟩
    · rw [updateTotalItems_totalPages, htp]
    · rw [updateTotalItems_fst]
      simp [htp, hcp]
    · rw [updateTotalItems_snd, updateTotalItems_fst]
      simp [htp, hcp]

/-- C7 witness: Scenario C at the concrete state page 4 of 35 items, 10 per
page. -/
theorem C7_update_signal_witness :
    ({ itemsPerPage := 10, totalItems := 35, currentPage := 4,
       previousPage := 1 } : PagState).itemsPerPage = 10 ∧
    ({ itemsPerPage := 10, totalItems := 35, currentPage := 4,
       previousPage := 1 } : PagState).currentPage = 4 ∧
    ((updateTotalItems
        { itemsPerPage := 10, totalItems := 35, currentPage := 4,
          previousPage := 1 } 25 false).1.totalPages = 3 ∧
     (updateTotalItems
        { itemsPerPage := 10, totalItems := 35, currentPage := 4,
          previousPage := 1 } 25 false).1.currentPage = 3 ∧
     (updateTotalItems
        { itemsPerPage := 10, totalItems := 35, currentPage := 4,
          previousPage := 1 } 25 false).2 = true) :=
  ⟨rfl, rfl, C7_update_signal.2 _ rfl rfl⟩

/-- The raw item list carried by a remote response: the array itself for the
bare-array shape, response.todos (or empty) for the object shape. -/
def ApiResponse.items : ApiResponse → List RawTodo
  | .arr items => items
  | .obj todos? _ _ _ => todos?.getD []

/-- The normalized record list of a response is the normalization of its raw
item list. -/
theorem transformTodosResponse_todos (dates : DateMap) (now : Int)
    (resp : ApiResponse) :
    (transformTodosResponse dates now resp).1.todos =
      (transformItems dates now resp.items).1 := by
  cases resp <;> rfl

/-- Membership in the surviving-locals filter: the record is a local record
whose id collides with no remote record. -/
theorem survivingLocals_spec {localTodos remoteTodos : List Todo} {t : Todo}
    (ht : t ∈ survivingLocals localTodos remoteTodos) :
    t ∈ localTodos ∧ ∀ r ∈ remoteTodos, r.id ≠ t.id := by
  have h := List.mem_filter.mp ht
  refine ⟨h.1, ?_⟩
  have hany := h.2
  simp only [Bool.not_eq_true', List.any_eq_false, decide_eq_true_eq] at hany
  exact hany

/-- Unconditional description of the merge: survivors prepended, total
increased by the survivor count. -/
theorem mergeRemote_spec (localTodos : List Todo) (tr : FetchResult) :
    (mergeRemote localTodos tr).todos =
      survivingLocals localTodos tr.todos ++ tr.todos ∧
    (mergeRemote localTodos tr).pagination.total =
      tr.pagination.total + (survivingLocals localTodos tr.todos).length := by
  unfold mergeRemote
  dsimp only
  split
  · exact ⟨rfl, rfl⟩
  · rename_i hlen
    have h0 : (survivingLocals localTodos tr.todos).length = 0 := by omega
    have hnil : survivingLocals localTodos tr.todos = [] :=
      List.length_eq_zero.mp h0
    rw [hnil]
    exact ⟨rfl, by simp⟩

/-- C1: on a successful remote fetch, the merged result is exactly the
surviving local records (store order) prepended to the normalized remote
records; when local and remote ids are duplicate-free the merged ids are
duplicate-free (one record per id); any merged record whose id occurs among
the remote items is the remote record (remote wins every collision); and the
returned total is the remote-reported (normalized) total plus the count of
surviving local records. -/
theorem C1_merge_dedup (store : List Todo) (dates : DateMap) (now : Int)
    (limit : Nat) (resp : ApiResponse)
    (hlocal : (store.map Todo.id).Nodup)
    (hremote : ((resp.items).map RawTodo.id).Nodup) :
    (fetchTodos store dates now limit (.ok resp)).todos =
      survivingLocals (getLocalTodos store)
          (transformTodosResponse dates now resp).1.todos ++
        (transformTodosResponse dates now resp).1.todos ∧
    ((fetchTodos store dates now limit (.ok resp)).todos.map Todo.id).Nodup ∧
    (∀ t ∈ (fetchTodos store dates now limit (.ok resp)).todos,
        t.id ∈ resp.items.map RawTodo.id →
        t ∈ (transformTodosResponse dates now resp).1.todos) ∧
    (fetchTodos store dates now limit (.ok resp)).pagination.total =
      (transformTodosResponse dates now resp).1.pagination.total +
        (survivingLocals (getLocalTodos store)
            (transformTodosResponse dates now resp).1.todos).length := by
  have hfetch : fetchTodos store dates now limit (.ok resp) =
      mergeRemote (getLocalTodos store) (transformTodosResponse dates now resp).1 :=
    rfl
  obtain ⟨hm1, hm2⟩ :=
    mergeRemote_spec (getLocalTodos store) (transformTodosResponse dates now resp).1
  have hremote_ids : (transformTodosResponse dates now resp).1.todos.map Todo.id =
      resp.items.map RawTodo.id := by
    rw [transformTodosResponse_todos, transformItems_map_id]
  have hlocal_nodup : ((getLocalTodos store).map Todo.id).Nodup :=
    (((getLocalTodos_perm store).map Todo.id).nodup_iff).mpr hlocal
  have hsurv_nodup :
      ((survivingLocals (getLocalTodos store)
          (transformTodosResponse dates now resp).1.todos).map Todo.id).Nodup :=
    ((List.filter_sublist _).map Todo.id).nodup hlocal_nodup
  have hR_nodup :
      ((transformTodosResponse dates now resp).1.todos.map Todo.id).Nodup := by
    rw [hremote_ids]
    exact hremote
  have hdisj : List.Disjoint
      ((survivingLocals (getLocalTodos store)
          (transformTodosResponse dates now resp).1.todos).map Todo.id)
      ((transformTodosResponse dates now resp).1.todos.map Todo.id) := by
    intro a haS haR
    obtain ⟨t, htS, rfl⟩ := List.mem_map.mp haS
    obtain ⟨r, hrR, hrid⟩ := List.mem_map.mp haR
    exact (survivingLocals_spec htS).2 r hrR hrid
  refine ⟨by rw [hfetch]; exact hm1, ?_, ?_, by rw [hfetch]; exact hm2⟩
  · rw [hfetch, hm1, List.map_append]
    exact hsurv_nodup.append hR_nodup hdisj
  · intro t ht hid
    rw [hfetch, hm1] at ht
    rcases List.mem_append.mp ht with htS | htR
    · exfalso
      rw [← hremote_ids] at hid
      obtain ⟨r, hrR, hrid⟩ := List.mem_map.mp hid
      exact (survivingLocals_spec htS).2 r hrR hrid
    · exact htR

/-- A concrete two-record store for the C1 witness. -/
def c1Store : List Todo :=
  [{ id := 1, title := "local-a", completed := false, userId := 1,
     createdAt := some 5 },
   { id := 2, title := "local-b", completed := true, userId := 1,
     createdAt := some 6 }]

/-- A concrete object-shaped remote response for the C1 witness: its item
with id 2 collides with a stored local record. -/
def c1Resp : ApiResponse :=
  .obj (some [{ id := 2, todoField := some "remote-b", userId := 3 },
              { id := 9, todoField := some "remote-c", userId := 3 }])
    (some 40) (some 10) (some 0)

/-- C1 witness: the merge theorem applied to a concrete store and response
with one colliding id. -/
theorem C1_merge_dedup_witness :
    (c1Store.map Todo.id).Nodup ∧ ((c1Resp.items).map RawTodo.id).Nodup ∧
    ((fetchTodos c1Store [] 0 10 (.ok c1Resp)).todos.map Todo.id).Nodup :=
  ⟨by decide, by decide,
   (C1_merge_dedup c1Store [] 0 10 c1Resp (by decide) (by decide)).2.1⟩

/-- A concrete store of 12 records for C3 (ids 1 to 12, distinct creation
instants). -/
def c3Store : List Todo :=
  (List.range 12).map
    (fun i =>
      { id := i + 1, title := "task", completed := false, userId := 1,
        createdAt := some (i : Int) })

/-- C3 counterexample: with 12 local records and the remote unreachable,
fetchTodos(page 1, limit 10) returns all 12 records, not 10 of them — the
fallback branch ignores the requested page size entirely. -/
theorem C3_counterexample :
    c3Store.length = 12 ∧
    (fetchTodos c3Store [] 0 10 .err).todos.length = 12 ∧
    ¬ (fetchTodos c3Store [] 0 10 .err).todos.length = 10 := by
  refine ⟨rfl, rfl, by decide⟩

/-- C3 amended: with 12 local records stored and the remote unreachable,
fetchTodos(1, 10) returns all 12 records — the full store contents in the
default order, newest sort key first — with total 12, and a paginator fed
that total with page size 10 computes totalPages 2. -/
theorem C3_fallback_returns_all (store : List Todo) (dates : DateMap)
    (now : Int) (h12 : store.length = 12) :
    (fetchTodos store dates now 10 .err).todos = getLocalTodos store ∧
    (fetchTodos store dates now 10 .err).todos.length = 12 ∧
    (getLocalTodos store).Pairwise keyGE ∧
    (fetchTodos store dates now 10 .err).pagination.total = 12 ∧
    (mkPagination 10
        (fetchTodos store dates now 10 .err).pagination.total).totalPages = 2 := by
  have hlen : (getLocalTodos store).length = 12 := by
    rw [(getLocalTodos_perm store).length_eq, h12]
  have htot : (fetchTodos store dates now 10 .err).pagination.total = 12 := hlen
  refine ⟨rfl, hlen, getLocalTodos_sorted store, htot, ?_⟩
  rw [htot]
  decide

/-- C3 witness: the amended claim instantiated at the concrete 12-record
store. -/
theorem C3_fallback_returns_all_witness :
    c3Store.length = 12 ∧
    ((fetchTodos c3Store [] 0 10 .err).todos = getLocalTodos c3Store ∧
     (fetchTodos c3Store [] 0 10 .err).todos.length = 12 ∧
     (getLocalTodos c3Store).Pairwise keyGE ∧
     (fetchTodos c3Store [] 0 10 .err).pagination.total = 12 ∧
     (mkPagination 10
        (fetchTodos c3Store [] 0 10 .err).pagination.total).totalPages = 2) :=
  ⟨rfl, C3_fallback_returns_all c3Store [] 0 rfl⟩

/-- C10: when the remote POST fails, addTodo absorbs the error (the embedded
fallback branch is total) and resolves with a fallback record whose id is the
Date.now() timestamp, whose title, completed and userId come from the input
(completed defaulting to false, userId defaulting to the configured 1 when
absent), whose createdAt is the current instant, marked isLocal; and the
record is appended (with a savedAt stamp) to the persistent local store
before the call returns. -/
theorem C10_add_fallback (store : List Todo) (nowMs : Nat) (d : TodoInput)
    (hpos : 0 < nowMs) (hfresh : ∀ x ∈ store, x.id ≠ nowMs) :
    (addTodoFallback store nowMs d).1.id = nowMs ∧
    (addTodoFallback store nowMs d).1.createdAt = some (nowMs : Int) ∧
    (addTodoFallback store nowMs d).1.isLocal = true ∧
    (∀ t : String, d.title = some t → t ≠ "" →
        (addTodoFallback store nowMs d).1.title = t) ∧
    (∀ c : Bool, d.completed = some c →
        (addTodoFallback store nowMs d).1.completed = c) ∧
    (d.completed = none → (addTodoFallback store nowMs d).1.completed = false) ∧
    (∀ u : Nat, d.userId = some u → u ≠ 0 →
        (addTodoFallback store nowMs d).1.userId = u) ∧
    (d.userId = none → (addTodoFallback store nowMs d).1.userId = 1) ∧
    (addTodoFallback store nowMs d).2 =
      store ++
        [{ (addTodoFallback store nowMs d).1 with savedAt := some (nowMs : Int) }] ∧
    { (addTodoFallback store nowMs d).1 with savedAt := some (nowMs : Int) } ∈
      (addTodoFallback store nowMs d).2 := by
  have hnone : store.findIdx? (fun x => x.id = nowMs) = none := by
    rw [List.findIdx?_eq_none_iff]
    intro x hx
    simpa using hfresh x hx
  have hsave : (addTodoFallback store nowMs d).2 =
      store ++
        [{ (addTodoFallback store nowMs d).1 with savedAt := some (nowMs : Int) }] := by
    show saveLocalTodo store (addTodoFallback store nowMs d).1 (nowMs : Int) = _
    unfold saveLocalTodo
    rw [if_neg (by simpa [addTodoFallback] using Nat.pos_iff_ne_zero.mp hpos)]
    have hid : (addTodoFallback store nowMs d).1.id = nowMs := rfl
    rw [hid, hnone]
    rfl
  refine ⟨rfl, rfl, rfl, ?_, ?_, ?_, ?_, ?_, hsave, ?_⟩
  · intro t ht htne
    simp [addTodoFallback, normalizeAddData, jsOrString, ht, htne]
  · intro c hc
    simp [addTodoFallback, normalizeAddData, hc]
  · intro hc
    simp [addTodoFallback, normalizeAddData, hc]
  · intro u hu hune
    simp [addTodoFallback, normalizeAddData, hu, hune]
  · intro hu
    simp [addTodoFallback, normalizeAddData, hu]
  · rw [hsave]
    exact List.mem_append_right _ (List.mem_singleton.mpr rfl)

/-- C10 witness: the fallback path at timestamp 1700000000000 with a fully
specified input over a one-record store with a different id. -/
theorem C10_add_fallback_witness :
    (0 < 1700000000000) ∧
    (∀ x ∈ c1Store, x.id ≠ 1700000000000) ∧
    (addTodoFallback c1Store 1700000000000
        { title := some "buy milk", completed := some false,
          userId := some 7 }).1.id = 1700000000000 ∧
    (addTodoFallback c1Store 1700000000000
        { title := some "buy milk", completed := some false,
          userId := some 7 }).1.isLocal = true :=
  ⟨by decide, by decide,
   (C10_add_fallback c1Store 1700000000000
      { title := some "buy milk", completed := some false, userId := some 7 }
      (by decide) (by decide)).1,
   (C10_add_fallback c1Store 1700000000000
      { title := some "buy milk", completed := some false, userId := some 7 }
      (by decide) (by decide)).2.2.1⟩
